import Mathlib

/-
  Shallow embedding of src/mem0.py (an Open WebUI filter integrating mem0).

  The Python Filter object carries mutable fields toggle, initialized,
  mem0_client and the admin valves; we model the part of that state the two
  hooks read and write as FilterState (the field initialized is modelled
  as initd, and the client handle mem0_client as a Bool: present or None).

  External effects are modelled by oracles:
  * the constructor body of initialize_clients (modelled as init_clients)
    either succeeds or fails, decided by a Bool ctorOk;
  * __event_emitter__ may raise at its n-th invocation within a hook call,
    decided by emitFails : Nat → Bool (a raising call delivers no event);
  * mem0_client.search returns a list of records or raises (searchRes);
  * mem0_client.add returns or raises (addRes).

  A hook outcome records the returned (or raised) value, the new state, the
  delivered status events, and the search/add calls made on the store.
-/

/-- A chat message: a dict with optional "role" and "content" keys. -/
structure Message where
  role : Option String
  content : Option String
deriving DecidableEq

/-- The conversation body: the only key the filter reads or writes is
"messages" (the code uses `body.get("messages")` and `body["messages"][-1]`). -/
structure Body where
  messages : List Message
deriving DecidableEq

/-- A memory record returned by `mem0_client.search`: a dict with optional
"memory" and "text" keys. -/
structure MemoryRecord where
  memory : Option String
  text : Option String
deriving DecidableEq

/-- Embeds `memory.get("memory", memory.get("text", ""))`, src/mem0.py line 208. -/
def memText (m : MemoryRecord) : String :=
  match m.memory with
  | some t => t
  | none => m.text.getD ""

/-- A Python exception, abstracted to its `str(e)` message. -/
structure PyErr where
  msg : String
deriving DecidableEq

/-- The model exception raised by a failing `__event_emitter__` call. -/
def emitterErr : PyErr := ⟨"event emitter raised"⟩

/-- The KeyError raised by `body["messages"][-1]["content"]` (line 214) when
the last message has no "content" key. -/
def keyErr : PyErr := ⟨"KeyError: content"⟩

/-- Per-user valves (`Filter.UserValves`), with their pydantic defaults. -/
structure UserValves where
  memory_enabled : Bool := true
  user_memory_tag : String := ""
deriving DecidableEq

/-- The `__user__` dict: optional "id", "name" and "valves" keys. -/
structure User where
  id : Option String
  name : Option String
  valves : Option UserValves
deriving DecidableEq

/-- The user valves both hooks work with: parsed from `__user__["valves"]`
when `__user__` is present and has a "valves" key, defaults otherwise
(lines 149-152 and 262-265). -/
def effectiveValves (user : Option User) : UserValves :=
  match user with
  | some u =>
    match u.valves with
    | some v => v
    | none => {}
  | none => {}

/-- Embeds `__user__.get("id", "default") if __user__ else "default"`. -/
def effectiveUserId (user : Option User) : String :=
  match user with
  | some u => u.id.getD "default"
  | none => "default"

/-- The mutable filter state the hooks read and write: `self.toggle`,
`self.initialized` (modelled as `initd`), whether `self.mem0_client` is set,
and the admin valve `self.valves.top_k_memories`. -/
structure FilterState where
  toggle : Bool
  initd : Bool
  mem0_client : Bool
  top_k_memories : Int
deriving DecidableEq

/-- A status event delivered through `__event_emitter__`; its dict shape is
`{"type": "status", "data": {"description": d, "done": b, "hidden": h}}` and
only the first inlet event sets a "hidden" key. -/
structure Event where
  type : String
  description : String
  done : Bool
  hidden : Option Bool
deriving DecidableEq

/-- The first inlet status event (src/mem0.py lines 165-174). -/
def searchingEvent (k : Int) : Event :=
  ⟨"status", "Searching memories (top " ++ toString k ++ ")...", false, some false⟩

/-- The "Mem0 not configured" status event (lines 182-190). -/
def notConfEvent : Event :=
  ⟨"status", "Mem0 not configured", true, none⟩

/-- The "Added N memories" status event (lines 217-225). -/
def addedEvent (n : Nat) : Event :=
  ⟨"status", "Added " ++ toString n ++ " memories", true, none⟩

/-- The status event emitted by the `except` handler (lines 240-248). -/
def memErrEvent (e : PyErr) : Event :=
  ⟨"status", "Memory error: " ++ e.msg, true, none⟩

/-- A call to `mem0_client.search(query=..., user_id=..., limit=...)`. -/
structure SearchCall where
  query : String
  user_id : String
  limit : Int
deriving DecidableEq

/-- A call to `mem0_client.add(messages=..., user_id=..., metadata=...)`;
the metadata dict is either empty or `{"tag": t}`, modelled as an `Option`. -/
structure AddCall where
  messages : List Message
  user_id : String
  metadata : Option String
deriving DecidableEq

/-- Embeds `metadata = {}` followed by `metadata["tag"] = tag` when the tag
is truthy, i.e. non-empty (lines 228-230 and 277-279). -/
def mdOf (uv : UserValves) : Option String :=
  if uv.user_memory_tag = "" then none else some uv.user_memory_tag

/-- Embeds `body["messages"][-1]["content"] = c`: replace the content of the
last message (no-op on an empty list, which the caller has already excluded). -/
def setLastContent (l : List Message) (c : String) : List Message :=
  match l.getLast? with
  | none => l
  | some m => l.dropLast ++ [{ m with content := some c }]

/-- Embeds `initialize_clients` (src/mem0.py lines 74-136), with its internal
`if self.initialized: return` guard.  On success it sets `mem0_client` and
`initialized = True`; every exception is caught inside the method, which then
sets `initialized = False` and leaves `mem0_client` as it was.  The second
component counts how many times the constructor body actually ran (0 or 1). -/
def init_clients (s : FilterState) (ctorOk : Bool) : FilterState × Nat :=
  if s.initd then (s, 0)
  else if ctorOk then ({ s with initd := true, mem0_client := true }, 1)
  else ({ s with initd := false }, 1)

/-- The outcome of one `inlet` invocation. -/
structure InletOut where
  result : Except PyErr Body
  state : FilterState
  events : List Event
  searchCalls : List SearchCall
  addCalls : List AddCall
  ctorRuns : Nat

/-- The `except Exception` handler of `inlet` (lines 238-248): it awaits one
more emitter call (index `c`); if that call itself raises, the new exception
propagates past the hook boundary, otherwise the handler falls through to
`return body` with whatever mutation already happened. -/
def exceptHandler (emitFails : Nat → Bool) (c : Nat) (e : PyErr)
    (s' : FilterState) (curBody : Body) (evs : List Event)
    (sCalls : List SearchCall) (aCalls : List AddCall) (runs : Nat) : InletOut :=
  if emitFails c then
    ⟨.error emitterErr, s', evs, sCalls, aCalls, runs⟩
  else
    ⟨.ok curBody, s', evs ++ [memErrEvent e], sCalls, aCalls, runs⟩

/-- Lines 227-236 of `inlet`: build the metadata, call `mem0_client.add` with
the pre-augmentation `last_message` under role "user"; an exception from `add`
goes to the `except` handler (next emitter index `c`). -/
def addStep (emitFails : Nat → Bool) (c : Nat) (addRes : Except PyErr Unit)
    (s' : FilterState) (curBody : Body) (uv : UserValves) (uid : String)
    (last_message : String) (evs : List Event) (sCalls : List SearchCall)
    (runs : Nat) : InletOut :=
  let aCalls : List AddCall := [⟨[⟨some "user", some last_message⟩], uid, mdOf uv⟩]
  match addRes with
  | .ok _ => ⟨.ok curBody, s', evs, sCalls, aCalls, runs⟩
  | .error e => exceptHandler emitFails c e s' curBody evs sCalls aCalls runs

/-- Embeds `Filter.inlet` (src/mem0.py lines 138-250).  Emitter call indices
within one invocation: the "Searching memories" emit is index 0 and sits
OUTSIDE the try block (lines 165-174), so its raising propagates; the emits
inside the try block and the one inside the except handler take the next
index in turn. -/
def inlet (s : FilterState) (body : Body) (user : Option User)
    (emitFails : Nat → Bool) (ctorOk : Bool)
    (searchRes : Except PyErr (List MemoryRecord))
    (addRes : Except PyErr Unit) : InletOut :=
  if !s.toggle then
    ⟨.ok body, s, [], [], [], 0⟩
  else
    let uv := effectiveValves user
    if !uv.memory_enabled then
      ⟨.ok body, s, [], [], [], 0⟩
    else
      let uid := effectiveUserId user
      if emitFails 0 then
        ⟨.error emitterErr, s, [], [], [], 0⟩
      else
        let ev1 := searchingEvent s.top_k_memories
        let (s', runs) := if !s.initd then init_clients s ctorOk else (s, 0)
        if !s'.mem0_client then
          if emitFails 1 then
            exceptHandler emitFails 2 emitterErr s' body [ev1] [] [] runs
          else
            ⟨.ok body, s', [ev1, notConfEvent], [], [], runs⟩
        else
          match body.messages.getLast? with
          | none => ⟨.ok body, s', [ev1], [], [], runs⟩
          | some lastMsg =>
            let last_message := lastMsg.content.getD ""
            let sCalls : List SearchCall := [⟨last_message, uid, s.top_k_memories⟩]
            match searchRes with
            | .error e => exceptHandler emitFails 1 e s' body [ev1] sCalls [] runs
            | .ok results =>
              match results with
              | [] => addStep emitFails 1 addRes s' body uv uid last_message [ev1] sCalls runs
              | r :: rs =>
                match lastMsg.content with
                | none => exceptHandler emitFails 1 keyErr s' body [ev1] sCalls [] runs
                | some orig =>
                  let context := String.intercalate "\n"
                    ("[Memory Context]" :: (r :: rs).map (fun q => "- " ++ memText q))
                  let newBody : Body :=
                    ⟨setLastContent body.messages (context ++ "\n\n[Current Message]\n" ++ orig)⟩
                  if emitFails 1 then
                    exceptHandler emitFails 2 emitterErr s' newBody [ev1] sCalls [] runs
                  else
                    addStep emitFails 2 addRes s' newBody uv uid last_message
                      [ev1, addedEvent (r :: rs).length] sCalls runs

/-- The outcome of one `outlet` invocation (the state is never written and no
event is ever emitted by `outlet`). -/
structure OutletOut where
  result : Except PyErr Body
  addCalls : List AddCall

/-- Embeds `Filter.outlet` (src/mem0.py lines 252-290).  It never calls the
event emitter; a raising `mem0_client.add` is caught and logged (lines
287-288). -/
def outlet (s : FilterState) (body : Body) (user : Option User)
    (addRes : Except PyErr Unit) : OutletOut :=
  if !s.toggle || !s.initd || !s.mem0_client then
    ⟨.ok body, []⟩
  else
    let uv := effectiveValves user
    if !uv.memory_enabled then
      ⟨.ok body, []⟩
    else
      let uid := effectiveUserId user
      match body.messages.getLast? with
      | none => ⟨.ok body, []⟩
      | some lastMsg =>
        if lastMsg.role = some "assistant" then
          match addRes with
          | .ok _ => ⟨.ok body, [⟨[lastMsg], uid, mdOf uv⟩]⟩
          | .error _ => ⟨.ok body, [⟨[lastMsg], uid, mdOf uv⟩]⟩
        else
          ⟨.ok body, []⟩

/-- Shared helper: `outlet` returns its input body on every path. -/
theorem outlet_result_ok (s : FilterState) (b : Body) (user : Option User)
    (addRes : Except PyErr Unit) : (outlet s b user addRes).result = .ok b := by
  unfold outlet
  dsimp only
  repeat' split
  all_goals rfl

/-- Claim C10: `outlet` never mutates the conversation body — for every input
body, user object, and store behavior, the body value it returns is exactly
the input body (its only effects are the optional store add call and
logging). -/
theorem outlet_never_mutates_body (s : FilterState) (b : Body) (user : Option User)
    (addRes : Except PyErr Unit) : (outlet s b user addRes).result = .ok b :=
  outlet_result_ok s b user addRes

/-- Claim C3: if the pipeline toggle is off or the user has memory disabled,
`inlet` and `outlet` both return the body unchanged, with no store search or
add calls, no events and no constructor run (pure pass-through). -/
theorem disabled_pass_through (s : FilterState) (b : Body) (user : Option User)
    (emitFails : Nat → Bool) (ctorOk : Bool) (searchRes : Except PyErr (List MemoryRecord))
    (addRes : Except PyErr Unit)
    (h : s.toggle = false ∨ (effectiveValves user).memory_enabled = false) :
    inlet s b user emitFails ctorOk searchRes addRes = ⟨.ok b, s, [], [], [], 0⟩ ∧
    outlet s b user addRes = ⟨.ok b, []⟩ := by
  constructor
  · unfold inlet
    dsimp only
    rcases h with h | h
    · simp [h]
    · cases ht : s.toggle
      · simp [ht]
      · simp [ht, h]
  · unfold outlet
    dsimp only
    rcases h with h | h
    · simp [h]
    · cases ht : s.toggle
      · simp [ht]
      · simp [ht, h]

/-- Witness for C3: with the toggle off, both hooks pass a concrete body
through untouched and make no store calls. -/
theorem disabled_pass_through_w :
    inlet ⟨false, true, true, 3⟩ ⟨[⟨some "user", some "hi"⟩]⟩ none (fun _ => false) true
      (.ok []) (.ok ()) =
      ⟨.ok ⟨[⟨some "user", some "hi"⟩]⟩, ⟨false, true, true, 3⟩, [], [], [], 0⟩ ∧
    outlet ⟨false, true, true, 3⟩ ⟨[⟨some "user", some "hi"⟩]⟩ none (.ok ()) =
      ⟨.ok ⟨[⟨some "user", some "hi"⟩]⟩, []⟩ :=
  disabled_pass_through _ _ _ _ _ _ _ (Or.inl rfl)

set_option maxHeartbeats 1000000 in
/-- Claim C1 (amended): success of client construction is sticky — once the
state records a successful construction, no later `inlet` call re-runs the
constructor — but failure is NOT sticky: after a failed attempt the next
`inlet` call that reaches the initialization step (toggle on, user memory
enabled, first status emit not raising) runs the constructor again, because
`initialize_clients` sets `initialized = False` in its exception handlers. -/
theorem client_construction_runs (s : FilterState) (b : Body) (user : Option User)
    (ef : Nat → Bool) (ctorOk : Bool) (sr : Except PyErr (List MemoryRecord))
    (ar : Except PyErr Unit) :
    (s.initd = true → (inlet s b user ef ctorOk sr ar).ctorRuns = 0) ∧
    (s.initd = false → s.toggle = true → (effectiveValves user).memory_enabled = true →
      ef 0 = false → (inlet s b user ef ctorOk sr ar).ctorRuns = 1) := by
  constructor
  · intro hi
    unfold inlet addStep exceptHandler
    dsimp only
    simp only [hi, Bool.not_true]
    repeat' split
    all_goals simp_all
  · intro hi ht hm he
    unfold inlet addStep exceptHandler init_clients
    dsimp only
    simp only [hi, ht, hm, he, Bool.not_true, Bool.not_false]
    repeat' split
    all_goals simp_all

/-- Counterexample to C1 as stated: starting uninitialized with a failing
constructor, the first `inlet` call attempts construction (and fails, leaving
`initialized = False`), and a second `inlet` call runs the constructor AGAIN —
the failure is not sticky. -/
theorem ctor_retry_after_failure_cx :
    (inlet ⟨true, false, false, 3⟩ ⟨[⟨some "user", some "hi"⟩]⟩ none (fun _ => false) false
      (.ok []) (.ok ())).ctorRuns = 1 ∧
    (inlet ⟨true, false, false, 3⟩ ⟨[⟨some "user", some "hi"⟩]⟩ none (fun _ => false) false
      (.ok []) (.ok ())).state.initd = false ∧
    (inlet (inlet ⟨true, false, false, 3⟩ ⟨[⟨some "user", some "hi"⟩]⟩ none (fun _ => false) false
        (.ok []) (.ok ())).state ⟨[⟨some "user", some "hi"⟩]⟩ none (fun _ => false) false
      (.ok []) (.ok ())).ctorRuns ≠ 0 := by
  refine ⟨rfl, rfl, ?_⟩
  decide

/-- Witness for the amended C1: an already-initialized state runs the
constructor 0 times, and an uninitialized enabled call runs it once. -/
theorem client_construction_runs_w :
    (inlet ⟨true, true, true, 3⟩ ⟨[]⟩ none (fun _ => false) false (.ok []) (.ok ())).ctorRuns = 0 ∧
    (inlet ⟨true, false, false, 3⟩ ⟨[]⟩ none (fun _ => false) false (.ok []) (.ok ())).ctorRuns = 1 :=
  ⟨(client_construction_runs _ _ _ _ _ _ _).1 rfl,
   (client_construction_runs _ _ _ _ _ _ _).2 rfl rfl rfl rfl⟩

/-- Claim C2 (amended): provided the event emitter never raises, `inlet`
never raises and always returns a body, for every store behavior including a
raising search or add; and `outlet` always returns the input body.  (As
stated the claim also quantified over a raising emitter; that case is refuted
by the counterexample, since the first status emit sits outside the try
block.) -/
theorem hooks_never_raise_when_emitter_ok (s : FilterState) (b : Body) (user : Option User)
    (ef : Nat → Bool) (ctorOk : Bool) (sr : Except PyErr (List MemoryRecord))
    (ar : Except PyErr Unit) (h : ∀ n, ef n = false) :
    (∃ b2, (inlet s b user ef ctorOk sr ar).result = .ok b2) ∧
    (outlet s b user ar).result = .ok b := by
  refine ⟨?_, outlet_result_ok s b user ar⟩
  unfold inlet addStep exceptHandler
  dsimp only
  simp only [h, Bool.false_eq_true, if_false]
  repeat' split
  all_goals exact ⟨_, rfl⟩

/-- Counterexample to C2 as stated: with an event emitter that raises, the
raise of the first status emit (which is outside the try block of `inlet`)
propagates past the hook boundary instead of a body being returned. -/
theorem inlet_raises_when_emitter_raises_cx :
    (inlet ⟨true, true, true, 3⟩ ⟨[⟨some "user", some "hi"⟩]⟩ none (fun _ => true) true
      (.ok []) (.ok ())).result = .error emitterErr := rfl

/-- Witness for the amended C2 at a concrete input with a non-raising
emitter. -/
theorem hooks_never_raise_when_emitter_ok_w :
    (∃ b2, (inlet ⟨true, true, true, 3⟩ ⟨[⟨some "user", some "hi"⟩]⟩ none (fun _ => false) true
      (.ok []) (.ok ())).result = .ok b2) ∧
    (outlet ⟨true, true, true, 3⟩ ⟨[⟨some "user", some "hi"⟩]⟩ none (.ok ())).result =
      .ok ⟨[⟨some "user", some "hi"⟩]⟩ :=
  hooks_never_raise_when_emitter_ok _ _ _ _ _ _ _ (fun _ => rfl)

set_option maxHeartbeats 1000000 in
/-- Claim C4: with non-empty search results, the augmented last-message
content is exactly the context header, one bullet line per result in order,
the separator header, and the original content beneath it. -/
theorem inlet_augment_format (s : FilterState) (ms : List Message) (m : Message)
    (user : Option User) (ef : Nat → Bool) (ctorOk : Bool)
    (r : MemoryRecord) (rs : List MemoryRecord) (ar : Except PyErr Unit) (orig : String)
    (ht : s.toggle = true) (hm : (effectiveValves user).memory_enabled = true)
    (hi : s.initd = true) (hc : s.mem0_client = true)
    (hcont : m.content = some orig) (hef : ∀ n, ef n = false) :
    (inlet s ⟨ms ++ [m]⟩ user ef ctorOk (.ok (r :: rs)) ar).result =
      .ok ⟨ms ++ [{ m with content := some (String.intercalate "\n"
          ("[Memory Context]" :: (r :: rs).map (fun q => "- " ++ memText q)) ++
          "\n\n[Current Message]\n" ++ orig) }]⟩ := by
  unfold inlet addStep exceptHandler setLastContent
  dsimp only
  simp only [ht, hm, hi, hc, hef, hcont, Bool.not_true, Bool.not_false, Bool.false_eq_true,
    if_false, if_true, List.getLast?_concat, List.dropLast_concat, Option.getD_some]
  split
  all_goals rfl

/-- Witness for C4: the end-to-end scenario of the spec, producing exactly
the quoted augmented content. -/
theorem inlet_augment_format_w :
    (inlet ⟨true, true, true, 3⟩ ⟨[⟨some "user", some "What\x27s my favorite color?"⟩]⟩ none
      (fun _ => false) true (.ok [⟨none, some "User likes blue"⟩]) (.ok ())).result =
      .ok ⟨[⟨some "user",
        some "[Memory Context]\n- User likes blue\n\n[Current Message]\nWhat\x27s my favorite color?"⟩]⟩ := by
  have h := inlet_augment_format ⟨true, true, true, 3⟩ []
    ⟨some "user", some "What\x27s my favorite color?"⟩ none (fun _ => false) true
    ⟨none, some "User likes blue"⟩ [] (.ok ()) "What\x27s my favorite color?"
    rfl rfl rfl rfl rfl (fun _ => rfl)
  exact h.trans (congrArg Except.ok (by decide))

set_option maxHeartbeats 1000000 in
/-- Claim C5: whenever `inlet` performs the store add after augmenting the
last message, the content passed to add is the ORIGINAL pre-augmentation
content, and the metadata carries the tag of the user exactly when that tag
is non-empty. -/
theorem inlet_add_original_content (s : FilterState) (ms : List Message) (m : Message)
    (user : Option User) (ef : Nat → Bool) (ctorOk : Bool)
    (r : MemoryRecord) (rs : List MemoryRecord) (ar : Except PyErr Unit) (orig : String)
    (ht : s.toggle = true) (hm : (effectiveValves user).memory_enabled = true)
    (hi : s.initd = true) (hc : s.mem0_client = true)
    (hcont : m.content = some orig) (hef : ∀ n, ef n = false) :
    (inlet s ⟨ms ++ [m]⟩ user ef ctorOk (.ok (r :: rs)) ar).addCalls =
      [⟨[⟨some "user", some orig⟩], effectiveUserId user,
        if (effectiveValves user).user_memory_tag = "" then none
        else some (effectiveValves user).user_memory_tag⟩] := by
  unfold inlet addStep exceptHandler mdOf
  dsimp only
  simp only [ht, hm, hi, hc, hef, hcont, Bool.not_true, Bool.not_false, Bool.false_eq_true,
    if_false, if_true, List.getLast?_concat, Option.getD_some]
  split
  all_goals rfl

/-- Witness for C5: a user with tag "work" gets the original content added
with metadata tag "work". -/
theorem inlet_add_original_content_w :
    (inlet ⟨true, true, true, 3⟩ ⟨[⟨some "user", some "What\x27s my favorite color?"⟩]⟩
      (some ⟨some "alice", none, some ⟨true, "work"⟩⟩)
      (fun _ => false) true (.ok [⟨none, some "User likes blue"⟩]) (.ok ())).addCalls =
      [⟨[⟨some "user", some "What\x27s my favorite color?"⟩], "alice", some "work"⟩] := by
  have h := inlet_add_original_content ⟨true, true, true, 3⟩ []
    ⟨some "user", some "What\x27s my favorite color?"⟩
    (some ⟨some "alice", none, some ⟨true, "work"⟩⟩) (fun _ => false) true
    ⟨none, some "User likes blue"⟩ [] (.ok ()) "What\x27s my favorite color?"
    rfl rfl rfl rfl rfl (fun _ => rfl)
  exact h.trans (by decide)

set_option maxHeartbeats 1000000 in
/-- Claim C6: with an empty search result, `inlet` leaves the body (and in
particular the last-message content) unmodified and still invokes the store
add with the original content. -/
theorem inlet_empty_results (s : FilterState) (ms : List Message) (m : Message)
    (user : Option User) (ef : Nat → Bool) (ctorOk : Bool) (ar : Except PyErr Unit)
    (ht : s.toggle = true) (hm : (effectiveValves user).memory_enabled = true)
    (hi : s.initd = true) (hc : s.mem0_client = true) (hef : ∀ n, ef n = false) :
    (inlet s ⟨ms ++ [m]⟩ user ef ctorOk (.ok []) ar).result = .ok ⟨ms ++ [m]⟩ ∧
    (inlet s ⟨ms ++ [m]⟩ user ef ctorOk (.ok []) ar).addCalls =
      [⟨[⟨some "user", some (m.content.getD "")⟩], effectiveUserId user,
        if (effectiveValves user).user_memory_tag = "" then none
        else some (effectiveValves user).user_memory_tag⟩] := by
  unfold inlet addStep exceptHandler mdOf
  dsimp only
  simp only [ht, hm, hi, hc, hef, Bool.not_true, Bool.not_false, Bool.false_eq_true,
    if_false, if_true, List.getLast?_concat]
  constructor
  · split
    all_goals rfl
  · split
    all_goals rfl

/-- Witness for C6 at a concrete one-message conversation. -/
theorem inlet_empty_results_w :
    (inlet ⟨true, true, true, 3⟩ ⟨[⟨some "user", some "hi"⟩]⟩ none (fun _ => false) true
      (.ok []) (.ok ())).result = .ok ⟨[⟨some "user", some "hi"⟩]⟩ ∧
    (inlet ⟨true, true, true, 3⟩ ⟨[⟨some "user", some "hi"⟩]⟩ none (fun _ => false) true
      (.ok []) (.ok ())).addCalls = [⟨[⟨some "user", some "hi"⟩], "default", none⟩] := by
  have h := inlet_empty_results ⟨true, true, true, 3⟩ [] ⟨some "user", some "hi"⟩ none
    (fun _ => false) true (.ok ()) rfl rfl rfl rfl (fun _ => rfl)
  exact ⟨h.1, h.2.trans (by decide)⟩

/-- Shared helper for C7: the description of the error status event, mapped
to lower case character-wise, contains the letters of "error". -/
theorem memErr_lower (e : PyErr) :
    ∃ aL bL, (memErrEvent e).description.data.map Char.toLower =
      aL ++ "error".data ++ bL := by
  refine ⟨"memory ".data, ": ".data ++ e.msg.data.map Char.toLower, ?_⟩
  show ("Memory error: " ++ e.msg).data.map Char.toLower = _
  rw [String.data_append, List.map_append]
  have h2 : "Memory error: ".data.map Char.toLower =
      "memory ".data ++ "error".data ++ ": ".data := by decide
  rw [h2]
  simp [List.append_assoc]

set_option maxHeartbeats 1000000 in
/-- Claim C7: if the store search raises, `inlet` returns the body unchanged
(no crash), and it emits a status event whose description contains the
substring "error" case-insensitively. -/
theorem inlet_search_error (s : FilterState) (ms : List Message) (m : Message)
    (user : Option User) (ef : Nat → Bool) (ctorOk : Bool) (e : PyErr)
    (ar : Except PyErr Unit)
    (ht : s.toggle = true) (hm : (effectiveValves user).memory_enabled = true)
    (hi : s.initd = true) (hc : s.mem0_client = true) (hef : ∀ n, ef n = false) :
    (inlet s ⟨ms ++ [m]⟩ user ef ctorOk (.error e) ar).result = .ok ⟨ms ++ [m]⟩ ∧
    ∃ ev ∈ (inlet s ⟨ms ++ [m]⟩ user ef ctorOk (.error e) ar).events,
      ev.type = "status" ∧
      ∃ aL bL, ev.description.data.map Char.toLower = aL ++ "error".data ++ bL := by
  have hev : (inlet s ⟨ms ++ [m]⟩ user ef ctorOk (.error e) ar).events =
      [searchingEvent s.top_k_memories, memErrEvent e] := by
    unfold inlet exceptHandler
    dsimp only
    simp [ht, hm, hi, hc, hef, List.getLast?_concat]
  constructor
  · unfold inlet exceptHandler
    dsimp only
    simp [ht, hm, hi, hc, hef, List.getLast?_concat]
  · refine ⟨memErrEvent e, ?_, rfl, memErr_lower e⟩
    rw [hev]
    simp

/-- Witness for C7 with a concrete raising search. -/
theorem inlet_search_error_w :
    (inlet ⟨true, true, true, 3⟩ ⟨[⟨some "user", some "hi"⟩]⟩ none (fun _ => false) true
      (.error ⟨"connection refused"⟩) (.ok ())).result = .ok ⟨[⟨some "user", some "hi"⟩]⟩ ∧
    ∃ ev ∈ (inlet ⟨true, true, true, 3⟩ ⟨[⟨some "user", some "hi"⟩]⟩ none (fun _ => false) true
      (.error ⟨"connection refused"⟩) (.ok ())).events,
      ev.type = "status" ∧
      ∃ aL bL, ev.description.data.map Char.toLower = aL ++ "error".data ++ bL :=
  inlet_search_error ⟨true, true, true, 3⟩ [] ⟨some "user", some "hi"⟩ none
    (fun _ => false) true ⟨"connection refused"⟩ (.ok ())
    rfl rfl rfl rfl (fun _ => rfl)

set_option maxHeartbeats 1000000 in
/-- Claim C8: pipeline on, user memory on, client unavailable with no prior
successful construction: `inlet` attempts construction once, and when the
constructor fails it emits the "Mem0 not configured" status event and returns
the body unchanged with no search or add call. -/
theorem inlet_not_configured (s : FilterState) (b : Body) (user : Option User)
    (ef : Nat → Bool) (sr : Except PyErr (List MemoryRecord)) (ar : Except PyErr Unit)
    (ht : s.toggle = true) (hm : (effectiveValves user).memory_enabled = true)
    (hi : s.initd = false) (hc : s.mem0_client = false) (hef : ∀ n, ef n = false) :
    (inlet s b user ef false sr ar).ctorRuns = 1 ∧
    (inlet s b user ef false sr ar).result = .ok b ∧
    (inlet s b user ef false sr ar).searchCalls = [] ∧
    (inlet s b user ef false sr ar).addCalls = [] ∧
    (inlet s b user ef false sr ar).events =
      [searchingEvent s.top_k_memories, notConfEvent] := by
  unfold inlet init_clients
  dsimp only
  simp [ht, hm, hi, hc, hef]

/-- Witness for C8 at a concrete state and body. -/
theorem inlet_not_configured_w :
    (inlet ⟨true, false, false, 3⟩ ⟨[⟨some "user", some "hi"⟩]⟩ none (fun _ => false) false
      (.ok []) (.ok ())).ctorRuns = 1 ∧
    (inlet ⟨true, false, false, 3⟩ ⟨[⟨some "user", some "hi"⟩]⟩ none (fun _ => false) false
      (.ok []) (.ok ())).result = .ok ⟨[⟨some "user", some "hi"⟩]⟩ ∧
    (inlet ⟨true, false, false, 3⟩ ⟨[⟨some "user", some "hi"⟩]⟩ none (fun _ => false) false
      (.ok []) (.ok ())).searchCalls = [] ∧
    (inlet ⟨true, false, false, 3⟩ ⟨[⟨some "user", some "hi"⟩]⟩ none (fun _ => false) false
      (.ok []) (.ok ())).addCalls = [] ∧
    (inlet ⟨true, false, false, 3⟩ ⟨[⟨some "user", some "hi"⟩]⟩ none (fun _ => false) false
      (.ok []) (.ok ())).events = [searchingEvent 3, notConfEvent] :=
  inlet_not_configured ⟨true, false, false, 3⟩ ⟨[⟨some "user", some "hi"⟩]⟩ none
    (fun _ => false) (.ok []) (.ok ()) rfl rfl rfl rfl (fun _ => rfl)

/-- Claim C9: with memory enabled and the client available, `outlet` calls
the store add with the last message exactly when its role is "assistant"
(with the tag of the user in metadata when non-empty); otherwise, or on an
empty conversation, no add call is made. -/
theorem outlet_add_iff_assistant (s : FilterState) (b : Body) (user : Option User)
    (ar : Except PyErr Unit)
    (ht : s.toggle = true) (hi : s.initd = true) (hc : s.mem0_client = true)
    (hm : (effectiveValves user).memory_enabled = true) :
    (outlet s b user ar).addCalls =
      match b.messages.getLast? with
      | none => []
      | some lastMsg =>
        if lastMsg.role = some "assistant" then
          [⟨[lastMsg], effectiveUserId user,
            if (effectiveValves user).user_memory_tag = "" then none
            else some (effectiveValves user).user_memory_tag⟩]
        else []
    := by
  cases hb : b.messages.getLast? with
  | none => simp [outlet, ht, hi, hc, hm, hb]
  | some lm =>
    by_cases hr : lm.role = some "assistant"
    · cases ar <;> simp [outlet, mdOf, ht, hi, hc, hm, hb, hr]
    · simp [outlet, ht, hi, hc, hm, hb, hr]

/-- Witness for C9: the end-to-end scenario of the spec — an assistant reply
is added once, exactly as that message. -/
theorem outlet_add_iff_assistant_w :
    (outlet ⟨true, true, true, 3⟩ ⟨[⟨some "assistant", some "Blue is great!"⟩]⟩ none
      (.ok ())).addCalls =
      [⟨[⟨some "assistant", some "Blue is great!"⟩], "default", none⟩] := by
  have h := outlet_add_iff_assistant ⟨true, true, true, 3⟩
    ⟨[⟨some "assistant", some "Blue is great!"⟩]⟩ none (.ok ()) rfl rfl rfl rfl
  exact h.trans (by decide)
